import Mathlib

/-!
Verification of the Road Distress survey form core (src/index.py).

The file shallow-embeds the two pieces of logic the claims concern:

* the GPS coordinate normalizer, `convert_gps_to_decimal` and its inner
  function `convert_to_decimal` (index.py lines 236-285), which turns the
  EXIF degrees/minutes/seconds rationals plus a hemisphere reference into
  a signed decimal value;
* the submission assembly performed by the submit handler in `main`
  (index.py lines 603-637) together with the row construction of
  `submit_to_google_sheets` (index.py lines 130-186).

Python floats are modelled exactly as rationals; the float divisions the
claims quantify over (division by 60.0 and 3600.0 of small integers)
agree with the exact values far within every tolerance a claim states.
Python exceptions inside the try blocks of the normalizer are modelled
with `Except`, and the handlers map every error to `Option.none`, as the
source catches every exception and returns None.
-/

/-- Dynamic Python values as they occur in the piexif GPS dictionary and
as hemisphere references: None, int, str, bytes and tuples. Bytes are
carried as ASCII strings; indexing into a bytes value yields an int, as
in Python 3. This is the closed universe of value shapes appearing in
EXIF GPS data. -/
inductive PyVal where
  | none
  | int (n : Int)
  | str (s : String)
  | bytes (s : String)
  | tuple (elems : List PyVal)

/-- Python truthiness, as used by the guards `if not coordinate or not
reference` (line 257) and `if not gps_coords` (line 237). -/
def PyVal.truthy : PyVal → Bool
  | PyVal.none => false
  | PyVal.int n => n != 0
  | PyVal.str s => s != ""
  | PyVal.bytes s => s != ""
  | PyVal.tuple l => !l.isEmpty

/-- The tuple unpacking `degrees, minutes, seconds = coordinate`
(line 261). A tuple of length three unpacks to its elements; a str or
bytes of length three unpacks to single characters resp. byte ints; any
other value raises (modelled as `Except.error`). -/
def unpack3 : PyVal → Except String (PyVal × PyVal × PyVal)
  | PyVal.tuple [a, b, c] => Except.ok (a, b, c)
  | PyVal.str s =>
      match s.toList with
      | [a, b, c] =>
          Except.ok (PyVal.str a.toString, PyVal.str b.toString, PyVal.str c.toString)
      | _ => Except.error "ValueError"
  | PyVal.bytes s =>
      match s.toList with
      | [a, b, c] =>
          Except.ok (PyVal.int a.toNat, PyVal.int b.toNat, PyVal.int c.toNat)
      | _ => Except.error "ValueError"
  | _ => Except.error "TypeError"

/-- The subscript `v[0]` applied to each unpacked component (line 262).
Only tuples, strings and bytes are subscriptable; an empty one raises
IndexError, a non-subscriptable value raises TypeError. -/
def sub0 : PyVal → Except String PyVal
  | PyVal.tuple (x :: _) => Except.ok x
  | PyVal.tuple [] => Except.error "IndexError"
  | PyVal.str s =>
      match s.toList with
      | [] => Except.error "IndexError"
      | a :: _ => Except.ok (PyVal.str a.toString)
  | PyVal.bytes s =>
      match s.toList with
      | [] => Except.error "IndexError"
      | a :: _ => Except.ok (PyVal.int a.toNat)
  | _ => Except.error "TypeError"

/-- Numeric coercion demanded by the arithmetic on line 262; the values
reaching it from EXIF data are ints, anything else raises TypeError. -/
def asNum : PyVal → Except String ℚ
  | PyVal.int n => Except.ok (n : ℚ)
  | _ => Except.error "TypeError"

/-- The membership test `reference in [b'S', b'W', 'S', 'W']`
(line 264). -/
def isSouthWest : PyVal → Bool
  | PyVal.bytes s => s == "S" || s == "W"
  | PyVal.str s => s == "S" || s == "W"
  | _ => false

/-- The body of the try block of `convert_to_decimal` (lines 261-267):
unpack the DMS triple, take element 0 of each component, compute
`degrees[0] + minutes[0] / 60.0 + seconds[0] / 3600.0`, and negate when
the reference is South or West. Note the source reads only element 0 of
each rational pair; the denominator (element 1) is never used. -/
def convert_body (coordinate reference : PyVal) : Except String ℚ := do
  let (degrees, minutes, seconds) ← unpack3 coordinate
  let d ← sub0 degrees
  let m ← sub0 minutes
  let s ← sub0 seconds
  let dq ← asNum d
  let mq ← asNum m
  let sq ← asNum s
  let decimal := dq + mq / 60 + sq / 3600
  let decimal := if isSouthWest reference then -decimal else decimal
  return decimal

/-- `convert_to_decimal` (index.py lines 256-270): returns None when
coordinate or reference is falsy, otherwise runs the try block, mapping
every raised exception to None via the except handler. -/
def convert_to_decimal (coordinate reference : PyVal) : Option ℚ :=
  if !coordinate.truthy || !reference.truthy then Option.none
  else
    match convert_body coordinate reference with
    | Except.ok v => some v
    | Except.error _ => Option.none

/-- piexif.GPSIFD.GPSLatitudeRef. -/
def GPSLatitudeRef : Nat := 1

/-- piexif.GPSIFD.GPSLatitude. -/
def GPSLatitude : Nat := 2

/-- piexif.GPSIFD.GPSLongitudeRef. -/
def GPSLongitudeRef : Nat := 3

/-- piexif.GPSIFD.GPSLongitude. -/
def GPSLongitude : Nat := 4

/-- `gps_coords.get(tag)` on the GPS dictionary: the first binding of
the tag, or None when the tag is missing (dict.get default). -/
def dictGet (d : List (Nat × PyVal)) (k : Nat) : PyVal :=
  match d.find? (fun p => p.1 == k) with
  | some p => p.2
  | Option.none => PyVal.none

/-- `convert_gps_to_decimal` (index.py lines 236-285): `(None, None)`
when no GPS dictionary is given (None or empty, both falsy), otherwise
the latitude and longitude tags are each looked up and converted by
`convert_to_decimal`. The code after the falsy guard sits in a try
block, but every step of it is total (dict lookups and calls of the
never-raising inner function), so the outer except branch is dead. -/
def convert_gps_to_decimal (gps_coords : Option (List (Nat × PyVal))) :
    Option ℚ × Option ℚ :=
  match gps_coords with
  | Option.none => (Option.none, Option.none)
  | some d =>
      if d.isEmpty then (Option.none, Option.none)
      else
        (convert_to_decimal (dictGet d GPSLatitude) (dictGet d GPSLatitudeRef),
         convert_to_decimal (dictGet d GPSLongitude) (dictGet d GPSLongitudeRef))

/-- The coordinates the "Upload Image with GPS" branch of `main` ends up
holding (index.py lines 552-563): latitude and longitude start as None;
when GPS data was extracted they are set to the converted pair as-is.
The subsequent `if latitude and longitude` check only gates the
on-screen metric display and does not change the two variables. -/
def upload_image_coords (gps_data : Option (List (Nat × PyVal))) :
    Option ℚ × Option ℚ :=
  match gps_data with
  | Option.none => (Option.none, Option.none)
  | some d =>
      if d.isEmpty then (Option.none, Option.none)
      else convert_gps_to_decimal (some d)

/-- An EXIF DMS angle as piexif returns it: a tuple of three
(numerator, denominator) rational pairs. -/
def mkAngle (d m s : Int × Int) : PyVal :=
  PyVal.tuple
    [PyVal.tuple [PyVal.int d.1, PyVal.int d.2],
     PyVal.tuple [PyVal.int m.1, PyVal.int m.2],
     PyVal.tuple [PyVal.int s.1, PyVal.int s.2]]

/-- Modelled from the spec (section 4.1 algorithm), for comparison with
the source function `convert_to_decimal`: each DMS component evaluated
as numerator/denominator, then degrees + minutes/60 + seconds/3600,
negated when the reference denotes South or West. -/
def toDecimal_spec (d m s : Int × Int) (southWest : Bool) : ℚ :=
  let v := (d.1 : ℚ) / (d.2 : ℚ) + ((m.1 : ℚ) / (m.2 : ℚ)) / 60 +
    ((s.1 : ℚ) / (s.2 : ℚ)) / 3600
  if southWest then -v else v

/-- A cell value of the `data_to_submit` dictionary and of the appended
row: a string, a number (the two number inputs and the converted
coordinates), or Python None (the initial value of latitude, longitude
and the image URL when no source supplied them). -/
inductive Cell where
  | str (s : String)
  | num (q : ℚ)
  | none
deriving DecidableEq, Repr

/-- The value of the latitude and longitude variables of `main` as it
lands in the dictionary: a number, or None. -/
def optNumField : Option ℚ → Cell
  | Option.none => Cell.none
  | some q => Cell.num q

/-- The value of the uploaded image URL variable of `main` as it lands
in the dictionary: a string, or None. -/
def optStrField : Option String → Cell
  | Option.none => Cell.none
  | some s => Cell.str s

/-- The local variables of `main` at the moment the submit button is
handled (index.py lines 603-623): the four text inputs, the two select
boxes, the two number inputs, the coordinate variables, the notes and
the uploaded image URL. Latitude, longitude and image URL are None when
no source supplied them. -/
structure FormState where
  road_name : String
  district : String
  road_type : String
  city : String
  distress_type : String
  severity : String
  distress_length : ℚ
  distress_width : ℚ
  latitude : Option ℚ
  longitude : Option ℚ
  additional_notes : String
  uploaded_image_url : Option String

/-- The dictionary `data_to_submit` built by `main` (index.py lines
610-623): all twelve keys are always present; absent optional values
enter as None, not as empty strings. -/
def data_to_submit (f : FormState) : List (String × Cell) :=
  [("Road Name", Cell.str f.road_name),
   ("District", Cell.str f.district),
   ("Road Type", Cell.str f.road_type),
   ("City", Cell.str f.city),
   ("Distress Type", Cell.str f.distress_type),
   ("Severity", Cell.str f.severity),
   ("Distress Length (m)", Cell.num f.distress_length),
   ("Distress Width (m)", Cell.num f.distress_width),
   ("Latitude", optNumField f.latitude),
   ("Longitude", optNumField f.longitude),
   ("Additional Notes", Cell.str f.additional_notes),
   ("Image URL", optStrField f.uploaded_image_url)]

/-- `data_to_submit.get(key, '')` as used on index.py lines 163-174:
the bound value when the key is present (even when that value is None),
and the empty string only when the key is missing entirely. -/
def dictGetS (d : List (String × Cell)) (k : String) : Cell :=
  match d.find? (fun p => p.1 == k) with
  | some p => p.2
  | Option.none => Cell.str ""

/-- The header row appended on sheet creation (index.py lines 152-157). -/
def headers : List String :=
  ["Road Name", "District", "Road Type", "City",
   "Distress Type", "Severity", "Distress Length (m)",
   "Distress Width (m)", "Latitude", "Longitude",
   "Additional Notes", "Image URL"]

/-- The row `submit_to_google_sheets` appends (index.py lines 162-175):
the twelve keys looked up in the fixed order with default empty
string. -/
def row_data (d : List (String × Cell)) : List Cell :=
  [dictGetS d "Road Name",
   dictGetS d "District",
   dictGetS d "Road Type",
   dictGetS d "City",
   dictGetS d "Distress Type",
   dictGetS d "Severity",
   dictGetS d "Distress Length (m)",
   dictGetS d "Distress Width (m)",
   dictGetS d "Latitude",
   dictGetS d "Longitude",
   dictGetS d "Additional Notes",
   dictGetS d "Image URL"]

/-- The required-field check of `main` (index.py line 605):
`all([road_name, district, road_type, distress_type, severity])`, each
string truthy iff non-empty. City, the numbers, the coordinates and the
notes are not checked. -/
def requiredAll (f : FormState) : Bool :=
  (f.road_name != "") && (f.district != "") && (f.road_type != "") &&
    (f.distress_type != "") && (f.severity != "")

/-- The side-effecting storage actions the submit handler can trigger,
in order: authenticating the external sheets client, then appending the
assembled row. -/
inductive StorageEvent where
  | authenticate
  | appendRow (row : List Cell)
deriving DecidableEq, Repr

/-- The submit handler of `main` (index.py lines 603-637). When the
required-field check fails, `main` shows one fixed error message and
returns before any storage action (the early return on line 607
precedes the client creation on line 629): no record and no storage
event. Otherwise the record is assembled and handed toward storage:
authentication of the external client is always attempted, and the row
is appended exactly when it succeeds (abstracted by `authOk`). The
first component is the assembly result, the second the storage trace. -/
def main_submit (f : FormState) (authOk : Bool) :
    Except String (List Cell) × List StorageEvent :=
  if !requiredAll f then
    (Except.error "Please fill in all required fields", [])
  else
    (Except.ok (row_data (data_to_submit f)),
     if authOk then
       [StorageEvent.authenticate,
        StorageEvent.appendRow (row_data (data_to_submit f))]
     else [StorageEvent.authenticate])

/-- The scenario of spec section 8: road name "Main St", district
"Central", road type "Highway", distress type "Pothole", severity
"High", no coordinate, no image. -/
def fScenario : FormState :=
  ⟨"Main St", "Central", "Highway", "", "Pothole", "High", 0, 0,
   Option.none, Option.none, "", Option.none⟩

/-- A candidate submission with distress length -1 and every required
field present. -/
def fNeg : FormState :=
  ⟨"Main St", "Central", "Highway", "", "Pothole", "High", -1, 0,
   Option.none, Option.none, "", Option.none⟩

/-- A candidate submission with an empty road name. -/
def fMissingRoad : FormState :=
  ⟨"", "Central", "Highway", "", "Pothole", "High", 0, 0,
   Option.none, Option.none, "", Option.none⟩

/-- A candidate submission with an empty district. -/
def fMissingDistrict : FormState :=
  ⟨"Main St", "", "Highway", "", "Pothole", "High", 0, 0,
   Option.none, Option.none, "", Option.none⟩

/-- A GPS dictionary carrying only the latitude tags: latitude
40 deg 26 min 46 sec North, no longitude entries. -/
def gpsLatOnly : List (Nat × PyVal) :=
  [(GPSLatitudeRef, PyVal.str "N"),
   (GPSLatitude, mkAngle (40, 1) (26, 1) (46, 1))]

/-- The form state of `main` after the upload-image path converted
`gpsLatOnly`: latitude populated with the converted value, longitude
still None. -/
def fC6 : FormState :=
  ⟨"Main St", "Central", "Highway", "", "Pothole", "High", 0, 0,
   some (72803 / 1800), Option.none, "", Option.none⟩

/-- Helper: on a well-formed DMS angle the try block always succeeds and
produces the numerators-only sum, signed by the reference. -/
theorem convert_body_mkAngle (d m s : Int × Int) (reference : PyVal) :
    convert_body (mkAngle d m s) reference =
      Except.ok
        (if isSouthWest reference then
          -((d.1 : ℚ) + (m.1 : ℚ) / 60 + (s.1 : ℚ) / 3600)
         else (d.1 : ℚ) + (m.1 : ℚ) / 60 + (s.1 : ℚ) / 3600) := rfl

/-- Helper: `convert_to_decimal` on a well-formed DMS angle, for any
reference value. -/
theorem convert_to_decimal_mkAngle (d m s : Int × Int) (reference : PyVal) :
    convert_to_decimal (mkAngle d m s) reference =
      if reference.truthy then
        some
          (if isSouthWest reference then
            -((d.1 : ℚ) + (m.1 : ℚ) / 60 + (s.1 : ℚ) / 3600)
           else (d.1 : ℚ) + (m.1 : ℚ) / 60 + (s.1 : ℚ) / 3600)
      else Option.none := by
  have hc : (mkAngle d m s).truthy = true := rfl
  unfold convert_to_decimal
  rw [hc, convert_body_mkAngle d m s reference]
  cases h : reference.truthy
  · rfl
  · rfl

/-- C1: the claim states that `convert_to_decimal` evaluates each DMS
component as numerator/denominator by floating-point division. The code
reads only element 0 of each rational pair and never divides by the
denominator: on the angle ((1,2),(0,1),(0,1)) with reference "N" it
returns 1, while the evaluation the claim states gives 1/2. -/
theorem convert_to_decimal_ignores_denominator :
    convert_to_decimal (mkAngle (1, 2) (0, 1) (0, 1)) (PyVal.str "N") = some 1 ∧
    toDecimal_spec (1, 2) (0, 1) (0, 1) false = 1 / 2 ∧
    (1 : ℚ) ≠ 1 / 2 := by
  have h1 : (PyVal.str "N").truthy = true := rfl
  have h2 : isSouthWest (PyVal.str "N") = false := rfl
  refine ⟨?_, by norm_num [toDecimal_spec], by norm_num⟩
  rw [convert_to_decimal_mkAngle]
  norm_num [h1, h2]

/-- C2: the claim states that a zero denominator in any DMS component
makes the result absent. The code never inspects denominators: on the
angle ((40,0),(26,0),(46,0)), all denominators zero, with reference "N"
it does not return None but fabricates 40 + 26/60 + 46/3600 from the
numerators alone. -/
theorem convert_to_decimal_zero_denominator_fabricates :
    convert_to_decimal (mkAngle (40, 0) (26, 0) (46, 0)) (PyVal.str "N") =
      some (72803 / 1800 : ℚ) := by
  have h1 : (PyVal.str "N").truthy = true := rfl
  have h2 : isSouthWest (PyVal.str "N") = false := rfl
  rw [convert_to_decimal_mkAngle]
  norm_num [h1, h2]

/-- C7: the normalizer never raises; every failure degrades to an
absent result. Whenever the try-block body of `convert_to_decimal`
raises any exception, the function returns None; and when no GPS data
is given (a None or empty dictionary, both falsy), the pair function
returns (None, None). The embedded functions are total, so no exception
escapes on any input. -/
theorem normalizer_degrades_to_absent :
    (∀ (coordinate reference : PyVal) (e : String),
        convert_body coordinate reference = Except.error e →
        convert_to_decimal coordinate reference = Option.none) ∧
    convert_gps_to_decimal Option.none = (Option.none, Option.none) ∧
    convert_gps_to_decimal (some []) = (Option.none, Option.none) := by
  refine ⟨?_, rfl, rfl⟩
  intro coordinate reference e h
  unfold convert_to_decimal
  split
  · rfl
  · rw [h]

/-- Witness for C7 at a malformed coordinate: a flat int triple, whose
components are not subscriptable, raises inside the try block, and the
function returns None. -/
theorem normalizer_degrades_witness :
    convert_body (PyVal.tuple [PyVal.int 1, PyVal.int 2, PyVal.int 3])
        (PyVal.str "N") = Except.error "TypeError" ∧
    convert_to_decimal (PyVal.tuple [PyVal.int 1, PyVal.int 2, PyVal.int 3])
        (PyVal.str "N") = Option.none :=
  ⟨rfl, normalizer_degrades_to_absent.1 _ _ "TypeError" rfl⟩

/-- C8: `convert_gps_to_decimal` applies `convert_to_decimal`
independently to each axis: on any non-empty GPS dictionary the result
pair is exactly the per-axis conversion of the latitude tags and of the
longitude tags, so each component is determined by its own axis entries
alone and an axis failing yields None in that component only. -/
theorem axes_converted_independently (d : List (Nat × PyVal)) (h : d ≠ []) :
    convert_gps_to_decimal (some d) =
      (convert_to_decimal (dictGet d GPSLatitude) (dictGet d GPSLatitudeRef),
       convert_to_decimal (dictGet d GPSLongitude) (dictGet d GPSLongitudeRef)) := by
  cases d with
  | nil => exact absurd rfl h
  | cons a t => rfl

/-- Witness for C8 on the latitude-only dictionary: the latitude axis
converts, the longitude axis is absent. -/
theorem axes_independent_witness :
    convert_gps_to_decimal (some gpsLatOnly) =
      (convert_to_decimal (dictGet gpsLatOnly GPSLatitude)
         (dictGet gpsLatOnly GPSLatitudeRef),
       convert_to_decimal (dictGet gpsLatOnly GPSLongitude)
         (dictGet gpsLatOnly GPSLongitudeRef)) :=
  axes_converted_independently gpsLatOnly (by simp [gpsLatOnly])

/-- C9: the DMS angle ((40,1),(26,1),(46,1)) converts to 72803/1800
with reference "N", within 1e-6 of 40.446111, and to its negation with
reference "S", within 1e-6 of -40.446111. -/
theorem dms_scenario_40_26_46 :
    convert_to_decimal (mkAngle (40, 1) (26, 1) (46, 1)) (PyVal.str "N") =
      some (72803 / 1800 : ℚ) ∧
    |(72803 / 1800 : ℚ) - 40446111 / 1000000| < 1 / 1000000 ∧
    convert_to_decimal (mkAngle (40, 1) (26, 1) (46, 1)) (PyVal.str "S") =
      some (-(72803 / 1800) : ℚ) ∧
    |(-(72803 / 1800) : ℚ) - (-(40446111 / 1000000))| < 1 / 1000000 := by
  have h1 : (PyVal.str "N").truthy = true := rfl
  have h2 : isSouthWest (PyVal.str "N") = false := rfl
  have h3 : (PyVal.str "S").truthy = true := rfl
  have h4 : isSouthWest (PyVal.str "S") = true := rfl
  refine ⟨?_, ?_, ?_, ?_⟩
  · rw [convert_to_decimal_mkAngle]
    norm_num [h1, h2]
  · rw [abs_sub_lt_iff]
    constructor <;> norm_num
  · rw [convert_to_decimal_mkAngle]
    norm_num [h3, h4]
  · rw [abs_sub_lt_iff]
    constructor <;> norm_num

/-- C10: the output of `convert_to_decimal` depends only on the three
numerators and the reference: two DMS angles with equal numerators and
any (in particular, differing non-zero) denominators convert to the
same value under the same reference. -/
theorem decimal_depends_only_on_numerators
    (d₁ d₂ m₁ m₂ s₁ s₂ : Int × Int) (reference : PyVal)
    (hd : d₁.1 = d₂.1) (hm : m₁.1 = m₂.1) (hs : s₁.1 = s₂.1)
    (hd₁ : d₁.2 ≠ 0) (hd₂ : d₂.2 ≠ 0) (hm₁ : m₁.2 ≠ 0) (hm₂ : m₂.2 ≠ 0)
    (hs₁ : s₁.2 ≠ 0) (hs₂ : s₂.2 ≠ 0) :
    convert_to_decimal (mkAngle d₁ m₁ s₁) reference =
      convert_to_decimal (mkAngle d₂ m₂ s₂) reference := by
  rw [convert_to_decimal_mkAngle, convert_to_decimal_mkAngle, hd, hm, hs]

/-- Witness for C10: the same numerators 40, 26, 46 under denominators
1, 1, 1 and 7, 3, 100 convert to the same value. -/
theorem numerator_dependence_witness :
    convert_to_decimal (mkAngle (40, 1) (26, 1) (46, 1)) (PyVal.str "N") =
      convert_to_decimal (mkAngle (40, 7) (26, 3) (46, 100)) (PyVal.str "N") :=
  decimal_depends_only_on_numerators (40, 1) (40, 7) (26, 1) (26, 3) (46, 1)
    (46, 100) (PyVal.str "N") rfl rfl rfl (by decide) (by decide) (by decide)
    (by decide) (by decide) (by decide)

/-- C3 (amended): every assembled record has exactly the fixed
12-column schema, the row appended by `submit_to_google_sheets` is the
header list looked up key by key in the same order, and an absent
optional field (latitude, longitude, image URL bound to None) appears
in the record as an explicit null (Cell.none), never omitted; the empty
string default of `.get(key, )` applies only to keys missing from the
mapping entirely. -/
theorem row_schema_fixed_order_absent_as_null :
    headers.length = 12 ∧
    (∀ d : List (String × Cell), row_data d = headers.map (fun k => dictGetS d k)) ∧
    (∀ f : FormState, f.latitude = Option.none → f.longitude = Option.none →
      f.uploaded_image_url = Option.none →
      (row_data (data_to_submit f)).getD 8 (Cell.str "?") = Cell.none ∧
      (row_data (data_to_submit f)).getD 9 (Cell.str "?") = Cell.none ∧
      (row_data (data_to_submit f)).getD 11 (Cell.str "?") = Cell.none) := by
  refine ⟨rfl, fun d => rfl, fun f h1 h2 h3 => ⟨?_, ?_, ?_⟩⟩
  · show optNumField f.latitude = Cell.none
    rw [h1]
    rfl
  · show optNumField f.longitude = Cell.none
    rw [h2]
    rfl
  · show optStrField f.uploaded_image_url = Cell.none
    rw [h3]
    rfl

/-- Counterexample to C3 as stated: in the scenario of spec section 8
(no coordinate, no image) the record carries None, not the empty
string, at the Latitude, Longitude and Image URL columns. -/
theorem absent_latitude_is_null_not_empty_string :
    (row_data (data_to_submit fScenario)).getD 8 (Cell.str "?") = Cell.none ∧
    (row_data (data_to_submit fScenario)).getD 9 (Cell.str "?") = Cell.none ∧
    (row_data (data_to_submit fScenario)).getD 11 (Cell.str "?") = Cell.none ∧
    Cell.none ≠ Cell.str "" := by
  refine ⟨rfl, rfl, rfl, by decide⟩

/-- Witness for C3 at the section 8 scenario record. -/
theorem row_schema_witness :
    row_data (data_to_submit fScenario) =
      headers.map (fun k => dictGetS (data_to_submit fScenario) k) ∧
    (row_data (data_to_submit fScenario)).getD 8 (Cell.str "?") = Cell.none :=
  ⟨row_schema_fixed_order_absent_as_null.2.1 (data_to_submit fScenario),
   (row_schema_fixed_order_absent_as_null.2.2 fScenario rfl rfl rfl).1⟩

/-- C4 (amended): the submit handler performs no numeric validation.
With the required fields present, a candidate whose distress length or
width is negative does not fail and no InvalidNumeric error exists:
the record is produced with the negative value in its numeric columns.
(Negative values are instead prevented upstream by the number-input
widgets, which are created with min_value=0.0 on index.py lines
513-514.) -/
theorem no_numeric_validation_in_assembly (f : FormState) (authOk : Bool)
    (h1 : f.road_name ≠ "") (h2 : f.district ≠ "") (h3 : f.road_type ≠ "")
    (h4 : f.distress_type ≠ "") (h5 : f.severity ≠ "")
    (hneg : f.distress_length < 0 ∨ f.distress_width < 0) :
    (main_submit f authOk).1 = Except.ok (row_data (data_to_submit f)) ∧
    (row_data (data_to_submit f)).getD 6 (Cell.str "?") =
      Cell.num f.distress_length ∧
    (row_data (data_to_submit f)).getD 7 (Cell.str "?") =
      Cell.num f.distress_width := by
  have hreq : requiredAll f = true := by
    simp only [requiredAll, Bool.and_eq_true, bne_iff_ne, ne_eq]
    exact ⟨⟨⟨⟨h1, h2⟩, h3⟩, h4⟩, h5⟩
  refine ⟨?_, rfl, rfl⟩
  simp [main_submit, hreq]

/-- Counterexample to C4 as stated: with distress length -1 and all
required fields present, assembly does not fail — a full record is
produced, negative value included. -/
theorem negative_length_still_produces_record :
    fNeg.distress_length < 0 ∧
    (main_submit fNeg true).1 =
      Except.ok
        [Cell.str "Main St", Cell.str "Central", Cell.str "Highway",
         Cell.str "", Cell.str "Pothole", Cell.str "High", Cell.num (-1),
         Cell.num 0, Cell.none, Cell.none, Cell.str "", Cell.none] := by
  constructor
  · show (-1 : ℚ) < 0
    norm_num
  · rfl

/-- Witness for C4 at the concrete negative-length candidate. -/
theorem no_numeric_validation_witness :
    (main_submit fNeg true).1 = Except.ok (row_data (data_to_submit fNeg)) ∧
    (row_data (data_to_submit fNeg)).getD 6 (Cell.str "?") =
      Cell.num fNeg.distress_length ∧
    (row_data (data_to_submit fNeg)).getD 7 (Cell.str "?") =
      Cell.num fNeg.distress_width :=
  no_numeric_validation_in_assembly fNeg true (by decide) (by decide)
    (by decide) (by decide) (by decide)
    (Or.inl (show (-1 : ℚ) < 0 by norm_num))

/-- C5 (amended): when any of the five required fields is empty the
submit handler fails with the one fixed error message, produces no
record, and triggers no storage action at all (the check precedes the
client creation); conversely, when all five are non-empty, assembly
never fails and the record is handed toward storage whether or not the
external client authenticates. -/
theorem required_check_precedes_storage :
    (∀ (f : FormState) (authOk : Bool),
        (f.road_name = "" ∨ f.district = "" ∨ f.road_type = "" ∨
          f.distress_type = "" ∨ f.severity = "") →
        main_submit f authOk =
          (Except.error "Please fill in all required fields", [])) ∧
    (∀ (f : FormState) (authOk : Bool),
        f.road_name ≠ "" → f.district ≠ "" → f.road_type ≠ "" →
        f.distress_type ≠ "" → f.severity ≠ "" →
        (main_submit f authOk).1 = Except.ok (row_data (data_to_submit f))) := by
  constructor
  · intro f authOk h
    have hreq : requiredAll f = false := by
      rcases h with h | h | h | h | h <;> simp [requiredAll, h]
    simp [main_submit, hreq]
  · intro f authOk h1 h2 h3 h4 h5
    have hreq : requiredAll f = true := by
      simp only [requiredAll, Bool.and_eq_true, bne_iff_ne, ne_eq]
      exact ⟨⟨⟨⟨h1, h2⟩, h3⟩, h4⟩, h5⟩
    simp [main_submit, hreq]

/-- Counterexample to C5 as stated: two candidates missing different
required fields (road name resp. district) produce the same failure
output, so the failure does not identify the offending field. -/
theorem missing_field_error_not_field_specific :
    main_submit fMissingRoad true = main_submit fMissingDistrict true ∧
    fMissingRoad.road_name = "" ∧ fMissingRoad.district = "Central" ∧
    fMissingDistrict.road_name = "Main St" ∧ fMissingDistrict.district = "" :=
  ⟨rfl, rfl, rfl, rfl, rfl⟩

/-- Witness for C5: a missing road name fails with no storage event,
and the section 8 scenario candidate assembles. -/
theorem required_check_witness :
    main_submit fMissingRoad true =
      (Except.error "Please fill in all required fields", []) ∧
    (main_submit fScenario true).1 =
      Except.ok (row_data (data_to_submit fScenario)) :=
  ⟨required_check_precedes_storage.1 fMissingRoad true (Or.inl rfl),
   required_check_precedes_storage.2 fScenario true (by decide) (by decide)
     (by decide) (by decide) (by decide)⟩

/-- C6: on a GPS dictionary carrying only latitude tags, the
upload-image path of `main` converts latitude and leaves longitude
None, and the assembled record persists exactly that partial pair: the
Latitude column populated, the Longitude column null. The location is
not made fully absent — the `if latitude and longitude` check on
index.py line 556 only gates the on-screen display. -/
theorem partial_coordinates_persisted :
    upload_image_coords (some gpsLatOnly) =
      (some (72803 / 1800 : ℚ), Option.none) ∧
    fC6.latitude = some (72803 / 1800 : ℚ) ∧
    fC6.longitude = Option.none ∧
    (row_data (data_to_submit fC6)).getD 8 (Cell.str "?") =
      Cell.num (72803 / 1800) ∧
    (row_data (data_to_submit fC6)).getD 9 (Cell.str "?") = Cell.none := by
  have h1 : (PyVal.str "N").truthy = true := rfl
  have h2 : isSouthWest (PyVal.str "N") = false := rfl
  have e1 : upload_image_coords (some gpsLatOnly) =
      (convert_to_decimal (mkAngle (40, 1) (26, 1) (46, 1)) (PyVal.str "N"),
       Option.none) := rfl
  have e2 : convert_to_decimal (mkAngle (40, 1) (26, 1) (46, 1))
      (PyVal.str "N") = some (72803 / 1800 : ℚ) := by
    rw [convert_to_decimal_mkAngle]
    norm_num [h1, h2]
  exact ⟨by rw [e1, e2], rfl, rfl, rfl, rfl⟩
